import Mathlib

/-!
Verification of the message-board backend in server.js.

The source file concatenates three server variants. Variant 1 is the full
session-authenticated, ownership-enforced CRUD server; variant 2 repeats it
with fewer input checks in the update and delete handlers; variant 3 has no
authentication and is not referenced by any claim.

Storage semantics follow SQLite as exposed by node-sqlite3: an UPDATE or
DELETE statement that matches zero rows is not an error (the callback
receives a null err and this.changes equal to 0), db.get returns the first
matching row or nothing, TEXT comparison uses the default BINARY collation
(case-sensitive exact equality), and AUTOINCREMENT ids start at 1.
JavaScript truthiness tests from the handlers are modelled explicitly:
an absent field, the number 0 and the empty string are falsy.
-/

namespace Server

/-- An HTTP response: status code plus the error or success text carried in
the JSON body. -/
structure HttpResponse where
  status : Nat
  body : String
  deriving DecidableEq, Repr

/-- A row of the messages table: id, name (author display name), message
(nullable TEXT body), user_id (nullable owner), timestamp. -/
structure Message where
  id : Nat
  name : String
  message : Option String
  user_id : Option Nat
  timestamp : Nat
  deriving DecidableEq, Repr

/-- The messages table together with its AUTOINCREMENT counter. -/
structure MsgStore where
  rows : List Message
  nextId : Nat
  deriving DecidableEq, Repr

/-- A freshly created messages table: no rows, next id 1. -/
def MsgStore.empty : MsgStore := ⟨[], 1⟩

/-- db.get on SELECT ... FROM messages WHERE id = ?: the first matching row
or nothing. -/
def selectById (s : MsgStore) (i : Nat) : Option Message :=
  s.rows.find? (fun m => m.id == i)

/-- INSERT INTO messages (name, message, user_id) VALUES (?, ?, ?): assigns
the next autoincrement id and the current timestamp; returns the new store
and this.lastID. -/
def insertMessage (s : MsgStore) (name : String) (body : Option String)
    (uid : Option Nat) (now : Nat) : MsgStore × Nat :=
  ({ rows := s.rows ++ [⟨s.nextId, name, body, uid, now⟩], nextId := s.nextId + 1 },
   s.nextId)

/-- UPDATE messages SET message = ? WHERE id = ?: returns the new store and
this.changes. Matching zero rows is not an error in SQLite. -/
def sqlUpdateMessage (s : MsgStore) (i : Nat) (newBody : Option String) :
    MsgStore × Nat :=
  ({ rows := s.rows.map (fun m => if m.id == i then { m with message := newBody } else m),
     nextId := s.nextId },
   (s.rows.filter (fun m => m.id == i)).length)

/-- DELETE FROM messages WHERE id = ?: returns the new store and
this.changes. -/
def sqlDeleteMessage (s : MsgStore) (i : Nat) : MsgStore × Nat :=
  ({ rows := s.rows.filter (fun m => m.id != i), nextId := s.nextId },
   (s.rows.filter (fun m => m.id == i)).length)

/-- SELECT * FROM messages ORDER BY id DESC, as served by GET /messages. -/
def listAll (s : MsgStore) : List Message :=
  List.insertionSort (fun a b => b.id ≤ a.id) s.rows

/-- Whitespace as recognised by the trim of the source language: tab, line
feed, vertical tab, form feed, carriage return, space, no-break space, the
Ogham space mark, the space separators U+2000 to U+200A, the line and
paragraph separators, the narrow no-break space, the medium mathematical
space, the ideographic space, and the zero-width no-break space U+FEFF. -/
def isWs (c : Char) : Bool :=
  c.toNat == 0x09 || c.toNat == 0x0a || c.toNat == 0x0b || c.toNat == 0x0c ||
  c.toNat == 0x0d || c.toNat == 0x20 || c.toNat == 0xa0 || c.toNat == 0x1680 ||
  (Nat.ble 0x2000 c.toNat && Nat.ble c.toNat 0x200a) || c.toNat == 0x2028 ||
  c.toNat == 0x2029 || c.toNat == 0x202f || c.toNat == 0x205f ||
  c.toNat == 0x3000 || c.toNat == 0xfeff

/-- The trim used by the handlers: removes leading and trailing whitespace
and returns the rest of the string unchanged. -/
def jsTrim (s : String) : String :=
  String.mk (((s.data.dropWhile isWs).reverse.dropWhile isWs).reverse)

/-- JavaScript truthiness of an optional numeric field: an absent value and
the number 0 are falsy. -/
def truthyNum : Option Nat → Bool
  | none => false
  | some n => n != 0

/-- JavaScript truthiness of an optional string field: an absent value and
the empty string are falsy. -/
def truthyStr : Option String → Bool
  | none => false
  | some s => s != ""

/-- Variant 1 POST /update handler, after requireLogin has admitted the
session user `uid`. `checkSt` is the store read by the ownership SELECT and
`mutSt` the store seen by the final UPDATE; passing the same store twice
models the race-free execution. Storage errors (the err and err2 callback
arguments) are out of scope: no branch models a failing statement. -/
def updateV1 (checkSt mutSt : MsgStore) (uid : Nat) (id? : Option Nat)
    (msg? : Option String) : MsgStore × HttpResponse :=
  if !truthyNum id? || !truthyStr msg? then
    (mutSt, ⟨400, "id and message required."⟩)
  else
    match selectById checkSt (id?.getD 0) with
    | none => (mutSt, ⟨404, "Message not found."⟩)
    | some row =>
      if !truthyNum row.user_id then
        (mutSt, ⟨403, "Cannot modify legacy message."⟩)
      else if row.user_id != some uid then
        (mutSt, ⟨403, "Not allowed."⟩)
      else
        ((sqlUpdateMessage mutSt (id?.getD 0) msg?).1, ⟨200, "success"⟩)

/-- Variant 1 POST /delete handler, after requireLogin. Same two-store race
convention as `updateV1`. -/
def deleteV1 (checkSt mutSt : MsgStore) (uid : Nat) (id? : Option Nat) :
    MsgStore × HttpResponse :=
  if !truthyNum id? then
    (mutSt, ⟨400, "id required."⟩)
  else
    match selectById checkSt (id?.getD 0) with
    | none => (mutSt, ⟨404, "Message not found."⟩)
    | some row =>
      if !truthyNum row.user_id then
        (mutSt, ⟨403, "Cannot delete legacy message."⟩)
      else if row.user_id != some uid then
        (mutSt, ⟨403, "Not allowed."⟩)
      else
        ((sqlDeleteMessage mutSt (id?.getD 0)).1, ⟨200, "success"⟩)

/-- Variant 2 POST /update handler: no id/message presence check and no
dedicated legacy-owner branch. A missing id binds NULL in the WHERE clause
and matches no row; a missing message would bind NULL into the column. -/
def updateV2 (checkSt mutSt : MsgStore) (uid : Nat) (id? : Option Nat)
    (msg? : Option String) : MsgStore × HttpResponse :=
  match id?.bind (fun i => selectById checkSt i) with
  | none => (mutSt, ⟨404, "Message not found."⟩)
  | some row =>
    if row.user_id != some uid then
      (mutSt, ⟨403, "Not allowed."⟩)
    else
      ((sqlUpdateMessage mutSt (id?.getD 0) msg?).1, ⟨200, "success"⟩)

/-- Variant 2 POST /delete handler: no id presence check and no dedicated
legacy-owner branch. -/
def deleteV2 (checkSt mutSt : MsgStore) (uid : Nat) (id? : Option Nat) :
    MsgStore × HttpResponse :=
  match id?.bind (fun i => selectById checkSt i) with
  | none => (mutSt, ⟨404, "Message not found."⟩)
  | some row =>
    if row.user_id != some uid then
      (mutSt, ⟨403, "Not allowed."⟩)
    else
      ((sqlDeleteMessage mutSt (id?.getD 0)).1, ⟨200, "success"⟩)

/-- Variant 1 POST /submit handler, after requireLogin: the author name is
the session username with the fallback "Anonymous" (the JS expression uses
a truthiness disjunction, so an empty username also falls back). Rejects
when the message is absent, empty, or trims to the empty string. The raw
message value is what the INSERT binds. -/
def submitV1 (s : MsgStore) (uid : Nat) (username : String)
    (msg? : Option String) (now : Nat) : MsgStore × HttpResponse :=
  let name := if username == "" then "Anonymous" else username
  if !truthyStr msg? || jsTrim (msg?.getD "") == "" then
    (s, ⟨400, "Message required."⟩)
  else
    ((insertMessage s name msg? (some uid) now).1, ⟨200, "success"⟩)

/-- A row of the users table. -/
structure User where
  id : Nat
  username : String
  password_hash : String
  deriving DecidableEq, Repr

/-- The users table together with its AUTOINCREMENT counter. -/
structure UserStore where
  users : List User
  nextId : Nat
  deriving DecidableEq, Repr

/-- db.get on SELECT ... FROM users WHERE username = ?: first matching row
or nothing; TEXT equality is the BINARY collation, i.e. case-sensitive
exact equality of strings. -/
def findByUsername (us : UserStore) (name : String) : Option User :=
  us.users.find? (fun u => u.username == name)

/-- Variant 1 POST /signup handler. `hash` abstracts bcrypt
(genSaltSync and hashSync). Returns the response, the new user table, and
the session identity set on success (auto-login). -/
def signup (hash : String → String) (us : UserStore)
    (username? password? : Option String) :
    HttpResponse × UserStore × Option (Nat × String) :=
  if !truthyStr username? || !truthyStr password? then
    (⟨400, "Username and password required."⟩, us, none)
  else
    let username := username?.getD ""
    match findByUsername us username with
    | some _ => (⟨400, "Username already taken."⟩, us, none)
    | none =>
      (⟨200, "User created and logged in."⟩,
       ⟨us.users ++ [⟨us.nextId, username, hash (password?.getD "")⟩], us.nextId + 1⟩,
       some (us.nextId, username))

/-- Variant 1 POST /login handler. `verify` abstracts bcrypt.compareSync.
Returns the response and the session identity set on success. -/
def login (verify : String → String → Bool) (us : UserStore)
    (username? password? : Option String) :
    HttpResponse × Option (Nat × String) :=
  if !truthyStr username? || !truthyStr password? then
    (⟨400, "Username and password required."⟩, none)
  else
    let username := username?.getD ""
    match findByUsername us username with
    | none => (⟨400, "Invalid credentials."⟩, none)
    | some row =>
      if !(verify (password?.getD "") row.password_hash) then
        (⟨400, "Invalid credentials."⟩, none)
      else
        (⟨200, "Logged in."⟩, some (row.id, username))

/-- The session store: the list of live session ids. -/
abbrev SessionStore := List Nat

/-- req.session.destroy: removes the session from the store and invokes the
callback. The express-session memory store reports no error when the
session id is absent, so the error handed to the callback is always none
absent a storage failure. -/
def sessionDestroy (store : SessionStore) (sid : Nat) :
    SessionStore × Option String :=
  (store.filter (fun s => s != sid), none)

/-- Variant 1 POST /logout handler: destroys the session, clears the
cookie, and reports 500 only when destroy handed the callback an error. -/
def logout (store : SessionStore) (sid : Nat) : SessionStore × HttpResponse :=
  match sessionDestroy store sid with
  | (store2, some _) => (store2, ⟨500, "Logout error."⟩)
  | (store2, none) => (store2, ⟨200, "Logged out."⟩)

/-- A small concrete store used by witnesses: message 1 owned by user 1,
message 2 owned by user 2, message 3 a legacy row with a null owner. -/
def demoStore : MsgStore :=
  ⟨[⟨1, "alice", some "hi", some 1, 10⟩,
    ⟨2, "bob", some "yo", some 2, 11⟩,
    ⟨3, "old", some "legacy", none, 5⟩], 4⟩

/-- `demoStore` after a concurrent delete removed message 1. -/
def racedStore : MsgStore :=
  ⟨[⟨2, "bob", some "yo", some 2, 11⟩,
    ⟨3, "old", some "legacy", none, 5⟩], 4⟩

/-- A small concrete user table used by witnesses. -/
def demoUsers : UserStore :=
  ⟨[⟨1, "Alice", "h1"⟩], 2⟩

instance : IsTotal Message (fun a b => b.id ≤ a.id) :=
  ⟨fun a b => Nat.le_total b.id a.id⟩

instance : IsTrans Message (fun a b => b.id ≤ a.id) :=
  ⟨fun _ _ _ h1 h2 => Nat.le_trans h2 h1⟩

/-- Mapping the per-row UPDATE action over rows none of which match the id
leaves the list unchanged. -/
theorem map_update_of_absent (rows : List Message) (i : Nat) (nb : Option String)
    (h : ∀ m ∈ rows, ¬ (m.id == i) = true) :
    rows.map (fun m => if m.id == i then { m with message := nb } else m) = rows := by
  induction rows with
  | nil => rfl
  | cons a l ih =>
    simp only [List.map_cons]
    rw [if_neg (h a (List.mem_cons_self a l)),
      ih (fun m hm => h m (List.mem_cons_of_mem a hm))]

/-- Filtering away the id of a row that is not present leaves the list
unchanged. -/
theorem filter_ne_of_absent (rows : List Message) (i : Nat)
    (h : ∀ m ∈ rows, ¬ (m.id == i) = true) :
    rows.filter (fun m => m.id != i) = rows := by
  apply List.filter_eq_self.mpr
  intro a ha
  simpa using h a ha

/-- An UPDATE whose WHERE clause matches no row leaves the store unchanged. -/
theorem sqlUpdateMessage_absent (s : MsgStore) (i : Nat) (nb : Option String)
    (h : selectById s i = none) : (sqlUpdateMessage s i nb).1 = s := by
  have h' : ∀ m ∈ s.rows, ¬ (m.id == i) = true := by
    intro m hm
    exact List.find?_eq_none.mp h m hm
  cases s with
  | mk rows nid =>
    simp only [sqlUpdateMessage]
    rw [map_update_of_absent rows i nb h']

/-- A DELETE whose WHERE clause matches no row leaves the store unchanged. -/
theorem sqlDeleteMessage_absent (s : MsgStore) (i : Nat)
    (h : selectById s i = none) : (sqlDeleteMessage s i).1 = s := by
  have h' : ∀ m ∈ s.rows, ¬ (m.id == i) = true := by
    intro m hm
    exact List.find?_eq_none.mp h m hm
  cases s with
  | mk rows nid =>
    simp only [sqlDeleteMessage]
    rw [filter_ne_of_absent rows i h']

/-- Claim C6: listAll returns exactly the stored messages, ordered by id
descending; after inserting m1, m2, m3 into the empty store it returns
m3, m2, m1. -/
theorem feed_ordering :
    (∀ s : MsgStore, List.Perm (listAll s) s.rows ∧
      (listAll s).Pairwise (fun a b => b.id ≤ a.id)) ∧
    (∀ n1 b1 u1 t1 n2 b2 u2 t2 n3 b3 u3 t3,
      listAll (insertMessage (insertMessage (insertMessage MsgStore.empty
          n1 b1 u1 t1).1 n2 b2 u2 t2).1 n3 b3 u3 t3).1 =
        [⟨3, n3, b3, u3, t3⟩, ⟨2, n2, b2, u2, t2⟩, ⟨1, n1, b1, u1, t1⟩]) := by
  constructor
  · intro s
    exact ⟨List.perm_insertionSort _ _, List.sorted_insertionSort _ _⟩
  · intro n1 b1 u1 t1 n2 b2 u2 t2 n3 b3 u3 t3
    rfl

/-- Claim C8: logout is idempotent: the first call succeeds whether or not
the session id is live (destroying a nonexistent session is not an error),
a second call in succession also succeeds, and the second call leaves the
session store exactly where the first call put it. -/
theorem logout_idempotent (store : SessionStore) (sid : Nat) :
    (logout store sid).2 = ⟨200, "Logged out."⟩ ∧
    (logout (logout store sid).1 sid).2 = ⟨200, "Logged out."⟩ ∧
    (logout (logout store sid).1 sid).1 = (logout store sid).1 := by
  refine ⟨rfl, rfl, ?_⟩
  simp [logout, sessionDestroy, List.filter_filter]

/-- Claim C2 counterexample: message 1 passes the ownership check against
demoStore but is absent from racedStore, the store seen by the final
mutating statement; both handlers report success (200), not NotFound (404),
because the final UPDATE and DELETE callbacks never consult the
affected-row count. -/
theorem race_counterexample :
    (updateV1 demoStore racedStore 1 (some 1) (some "x")).2.status = 200 ∧
    (updateV1 demoStore racedStore 1 (some 1) (some "x")).2.status ≠ 404 ∧
    (deleteV1 demoStore racedStore 1 (some 1)).2.status = 200 ∧
    (deleteV1 demoStore racedStore 1 (some 1)).2.status ≠ 404 := by
  decide

/-- Claim C2 amended: when the target passes the ownership check against
the store read by the SELECT but is absent from the store seen by the final
mutating statement, update and delete report success and leave the store
unchanged; storage-level absence is not re-checked. -/
theorem race_reports_success (checkSt mutSt : MsgStore) (i b : Nat)
    (m : Message) (hm : selectById checkSt i = some m)
    (ho : m.user_id = some b) (hb : b ≠ 0) (hi : i ≠ 0)
    (hgone : selectById mutSt i = none) (body : String) (hbody : body ≠ "") :
    updateV1 checkSt mutSt b (some i) (some body) = (mutSt, ⟨200, "success"⟩) ∧
    deleteV1 checkSt mutSt b (some i) = (mutSt, ⟨200, "success"⟩) := by
  constructor
  · simp only [updateV1, truthyNum, truthyStr, Option.getD_some, hm, ho]
    simp only [bne_self_eq_false, Bool.not_false, bne_iff_ne, ne_eq, hi,
      not_false_eq_true, bne_iff_ne, hbody, Bool.not_true, Bool.or_false,
      Bool.false_or]
    rw [if_neg (by simp [hi, hbody])]
    simp [hb, sqlUpdateMessage_absent mutSt i (some body) hgone]
  · simp only [deleteV1, truthyNum, truthyStr, Option.getD_some, hm, ho]
    rw [if_neg (by simp [hi])]
    simp [hb, sqlDeleteMessage_absent mutSt i hgone]

/-- Claim C2 amended witness: the race at the concrete stores, via the
amended theorem. -/
theorem race_reports_success_witness :
    updateV1 demoStore racedStore 1 (some 1) (some "x") =
      (racedStore, ⟨200, "success"⟩) ∧
    deleteV1 demoStore racedStore 1 (some 1) =
      (racedStore, ⟨200, "success"⟩) :=
  race_reports_success demoStore racedStore 1 1
    ⟨1, "alice", some "hi", some 1, 10⟩ (by decide) rfl
    (by decide) (by decide) (by decide) "x" (by decide)

/-- Claim C10: an accepted message body is stored exactly as received; the
trim is applied only to the emptiness check, so a stored body may begin or
end with whitespace. -/
theorem body_stored_verbatim (s : MsgStore) (uid : Nat) (un : String)
    (m : String) (now : Nat) (h : jsTrim m ≠ "") :
    ∃ r, (submitV1 s uid un (some m) now).1.rows = s.rows ++ [r] ∧
      r.message = some m := by
  have hm : m ≠ "" := by
    intro e
    rw [e] at h
    exact h (by decide)
  refine ⟨⟨s.nextId, if un == "" then "Anonymous" else un, some m, some uid, now⟩, ?_, rfl⟩
  simp only [submitV1, truthyStr, Option.getD_some, insertMessage]
  rw [if_neg (by simp [hm, h])]

/-- Claim C10 witness: a body with surrounding whitespace is stored
verbatim, including the whitespace. -/
theorem body_stored_verbatim_witness :
    ∃ r, (submitV1 MsgStore.empty 1 "alice" (some " hi ") 7).1.rows =
        MsgStore.empty.rows ++ [r] ∧ r.message = some " hi " :=
  body_stored_verbatim MsgStore.empty 1 "alice" " hi " 7 (by decide)

/-- Looking up an id other than the updated one is unaffected by the
per-row UPDATE action. -/
theorem find?_map_update_ne (rows : List Message) (i j : Nat) (hij : j ≠ i)
    (nb : Option String) :
    (rows.map (fun m => if m.id == i then { m with message := nb } else m)).find?
        (fun m => m.id == j) =
      rows.find? (fun m => m.id == j) := by
  induction rows with
  | nil => rfl
  | cons a l ih =>
    simp only [List.map_cons]
    by_cases ha : a.id = i
    · rw [if_pos (by simp [ha])]
      rw [List.find?_cons_of_neg _ (by simp [ha]; exact Ne.symm hij),
        List.find?_cons_of_neg _ (by simp [ha]; exact Ne.symm hij)]
      exact ih
    · rw [if_neg (by simp [ha])]
      by_cases hj : a.id = j
      · rw [List.find?_cons_of_pos _ (by simp [hj]),
          List.find?_cons_of_pos _ (by simp [hj])]
      · rw [List.find?_cons_of_neg _ (by simp [hj]),
          List.find?_cons_of_neg _ (by simp [hj])]
        exact ih

/-- Looking up the updated id after the per-row UPDATE action returns the
old row with only its message field replaced. -/
theorem find?_map_update_eq (rows : List Message) (i : Nat) (nb : Option String)
    (m : Message) (h : rows.find? (fun m => m.id == i) = some m) :
    (rows.map (fun m => if m.id == i then { m with message := nb } else m)).find?
        (fun m => m.id == i) =
      some ⟨m.id, m.name, nb, m.user_id, m.timestamp⟩ := by
  induction rows with
  | nil => simp at h
  | cons a l ih =>
    simp only [List.map_cons]
    by_cases ha : a.id = i
    · rw [List.find?_cons_of_pos _ (by simp [ha])] at h
      injection h with h
      subst h
      rw [if_pos (by simp [ha])]
      rw [List.find?_cons_of_pos _ (by simp [ha])]
    · rw [List.find?_cons_of_neg _ (by simp [ha])] at h
      rw [if_neg (by simp [ha])]
      rw [List.find?_cons_of_neg _ (by simp [ha])]
      exact ih h

/-- Claim C7: UPDATE of the body of message i changes only the message
field of that row: its id, name, owner and timestamp survive, every row
with a different id is looked up unchanged, and the autoincrement counter
is untouched. -/
theorem update_frame (s : MsgStore) (i : Nat) (nb : Option String) :
    (∀ j, j ≠ i → selectById (sqlUpdateMessage s i nb).1 j = selectById s j) ∧
    (∀ m, selectById s i = some m →
      selectById (sqlUpdateMessage s i nb).1 i =
        some ⟨m.id, m.name, nb, m.user_id, m.timestamp⟩) ∧
    (sqlUpdateMessage s i nb).1.nextId = s.nextId := by
  refine ⟨?_, ?_, rfl⟩
  · intro j hj
    simpa [selectById, sqlUpdateMessage] using
      find?_map_update_ne s.rows i j hj nb
  · intro m hm
    simpa [selectById, sqlUpdateMessage] using
      find?_map_update_eq s.rows i nb m (by simpa [selectById] using hm)

/-- Claim C7 witness: updating message 1 of the demo store leaves message 2
alone and replaces only the body of message 1. -/
theorem update_frame_witness :
    selectById (sqlUpdateMessage demoStore 1 (some "new")).1 2 =
      selectById demoStore 2 ∧
    selectById (sqlUpdateMessage demoStore 1 (some "new")).1 1 =
      some ⟨1, "alice", some "new", some 1, 10⟩ :=
  ⟨(update_frame demoStore 1 (some "new")).1 2 (by decide),
   (update_frame demoStore 1 (some "new")).2.1
     ⟨1, "alice", some "hi", some 1, 10⟩ (by decide)⟩

/-- Claim C5: a logged-in submit with an absent or whitespace-only message
fails with 400 and inserts nothing; with a message that does not trim to
empty it succeeds and exactly one row is added. -/
theorem submit_validation (s : MsgStore) (uid : Nat) (un : String) (now : Nat) :
    (∀ msg?, (msg? = none ∨ ∃ m, msg? = some m ∧ jsTrim m = "") →
      submitV1 s uid un msg? now = (s, ⟨400, "Message required."⟩)) ∧
    (∀ m, jsTrim m ≠ "" →
      (submitV1 s uid un (some m) now).2.status = 200 ∧
      (submitV1 s uid un (some m) now).1.rows.length = s.rows.length + 1) := by
  constructor
  · rintro msg? (rfl | ⟨m, rfl, ht⟩)
    · rfl
    · simp [submitV1, truthyStr, ht]
  · intro m ht
    have hm : m ≠ "" := by
      intro e
      rw [e] at ht
      exact ht (by decide)
    constructor
    · simp [submitV1, truthyStr, hm, ht]
    · simp [submitV1, truthyStr, hm, ht, insertMessage]

/-- Claim C5 witness: a whitespace-only message is rejected with the store
untouched, and a real message is accepted and stored. -/
theorem submit_validation_witness :
    submitV1 demoStore 1 "alice" (some "  ") 12 =
      (demoStore, ⟨400, "Message required."⟩) ∧
    (submitV1 demoStore 1 "alice" (some "hello") 12).2.status = 200 ∧
    (submitV1 demoStore 1 "alice" (some "hello") 12).1.rows.length =
      demoStore.rows.length + 1 :=
  ⟨(submit_validation demoStore 1 "alice" 12).1 (some "  ")
      (Or.inr ⟨"  ", rfl, by decide⟩),
   (submit_validation demoStore 1 "alice" 12).2 "hello" (by decide)⟩

/-- Claim C1: variant 1 ownership enforcement for update and delete: a
logged-in non-owner gets 403 with the store unchanged, the owner with
well-formed input succeeds, and a null-owner (legacy) message yields 403
for every logged-in user. -/
theorem ownership_enforcement (s : MsgStore) (i : Nat) (hi : i ≠ 0)
    (m : Message) (hm : selectById s i = some m)
    (body : String) (hbody : body ≠ "") :
    (∀ a b, m.user_id = some a → a ≠ 0 → b ≠ 0 → b ≠ a →
      updateV1 s s b (some i) (some body) = (s, ⟨403, "Not allowed."⟩) ∧
      deleteV1 s s b (some i) = (s, ⟨403, "Not allowed."⟩)) ∧
    (∀ a, m.user_id = some a → a ≠ 0 →
      (updateV1 s s a (some i) (some body)).2.status = 200 ∧
      (deleteV1 s s a (some i)).2.status = 200) ∧
    (m.user_id = none →
      ∀ b, updateV1 s s b (some i) (some body) =
          (s, ⟨403, "Cannot modify legacy message."⟩) ∧
        deleteV1 s s b (some i) = (s, ⟨403, "Cannot delete legacy message."⟩)) := by
  refine ⟨?_, ?_, ?_⟩
  · intro a b ha ha0 hb0 hba
    constructor
    · simp [updateV1, truthyNum, truthyStr, hi, hbody, hm, ha, ha0, Ne.symm hba]
    · simp [deleteV1, truthyNum, hi, hm, ha, ha0, Ne.symm hba]
  · intro a ha ha0
    constructor
    · simp [updateV1, truthyNum, truthyStr, hi, hbody, hm, ha, ha0]
    · simp [deleteV1, truthyNum, hi, hm, ha, ha0]
  · intro hnull b
    constructor
    · simp [updateV1, truthyNum, truthyStr, hi, hbody, hm, hnull]
    · simp [deleteV1, truthyNum, hi, hm, hnull]

/-- Claim C1 witness: on the demo store, user 2 cannot update message 1,
user 1 (the owner) can, and nobody can update the legacy message 3. -/
theorem ownership_enforcement_witness :
    updateV1 demoStore demoStore 2 (some 1) (some "x") =
      (demoStore, ⟨403, "Not allowed."⟩) ∧
    (updateV1 demoStore demoStore 1 (some 1) (some "x")).2.status = 200 ∧
    updateV1 demoStore demoStore 2 (some 3) (some "x") =
      (demoStore, ⟨403, "Cannot modify legacy message."⟩) :=
  ⟨((ownership_enforcement demoStore 1 (by decide)
        ⟨1, "alice", some "hi", some 1, 10⟩ (by decide) "x" (by decide)).1
      1 2 rfl (by decide) (by decide) (by decide)).1,
   ((ownership_enforcement demoStore 1 (by decide)
        ⟨1, "alice", some "hi", some 1, 10⟩ (by decide) "x" (by decide)).2.1
      1 rfl (by decide)).1,
   ((ownership_enforcement demoStore 3 (by decide)
        ⟨3, "old", some "legacy", none, 5⟩ (by decide) "x" (by decide)).2.2
      rfl 2).1⟩

/-- Claim C4: for a well-formed login attempt, the failure response when
the username is unknown is identical in status and body to the failure
response when the user exists but password verification fails, and both
set no session. -/
theorem login_no_enumeration (verify : String → String → Bool)
    (usA usB : UserStore) (u p : String) (hu : u ≠ "") (hp : p ≠ "")
    (hA : findByUsername usA u = none)
    (rowB : User) (hB : findByUsername usB u = some rowB)
    (hv : verify p rowB.password_hash = false) :
    login verify usA (some u) (some p) = login verify usB (some u) (some p) ∧
    login verify usA (some u) (some p) = (⟨400, "Invalid credentials."⟩, none) := by
  have htu : truthyStr (some u) = true := by simp [truthyStr, hu]
  have htp : truthyStr (some p) = true := by simp [truthyStr, hp]
  have e1 : login verify usA (some u) (some p) =
      (⟨400, "Invalid credentials."⟩, none) := by
    simp [login, htu, htp, hA]
  have e2 : login verify usB (some u) (some p) =
      (⟨400, "Invalid credentials."⟩, none) := by
    simp [login, htu, htp, hB, hv]
  exact ⟨e1.trans e2.symm, e1⟩

/-- Claim C4 witness: against an empty user table and against a table where
the user exists but the password check fails, the responses coincide. -/
theorem login_no_enumeration_witness :
    login (fun _ _ => false) ⟨[], 1⟩ (some "Alice") (some "pw") =
      login (fun _ _ => false) demoUsers (some "Alice") (some "pw") ∧
    login (fun _ _ => false) ⟨[], 1⟩ (some "Alice") (some "pw") =
      (⟨400, "Invalid credentials."⟩, none) :=
  login_no_enumeration (fun _ _ => false) ⟨[], 1⟩ demoUsers "Alice" "pw"
    (by decide) (by decide) rfl ⟨1, "Alice", "h1"⟩ (by decide) rfl

/-- Claim C3: after a successful signup of username u, any subsequent
signup of u fails with status 400 and leaves the user table unchanged; with
a well-formed password the error is precisely the duplicate-username one;
and signup preserves username uniqueness of the user table. -/
theorem username_uniqueness (hash : String → String) (us : UserStore)
    (u p : String)
    (h1 : (signup hash us (some u) (some p)).1.status = 200) :
    (∀ hash2 pw?,
      (signup hash2 (signup hash us (some u) (some p)).2.1 (some u) pw?).1.status = 400 ∧
      (signup hash2 (signup hash us (some u) (some p)).2.1 (some u) pw?).2.1 =
        (signup hash us (some u) (some p)).2.1) ∧
    (∀ hash2 p2, p2 ≠ "" →
      (signup hash2 (signup hash us (some u) (some p)).2.1 (some u) (some p2)).1 =
        ⟨400, "Username already taken."⟩) ∧
    (∀ hash2 un? pw?, (us.users.map User.username).Nodup →
      (((signup hash2 us un? pw?).2.1).users.map User.username).Nodup) := by
  have hu : u ≠ "" := by
    intro e
    subst e
    simp [signup, truthyStr] at h1
  have hp : p ≠ "" := by
    intro e
    subst e
    simp [signup, truthyStr] at h1
  have htu : truthyStr (some u) = true := by simp [truthyStr, hu]
  have htp : truthyStr (some p) = true := by simp [truthyStr, hp]
  have hf : findByUsername us u = none := by
    cases hfind : findByUsername us u with
    | none => rfl
    | some w => simp [signup, htu, htp, hfind] at h1
  have e1 : (signup hash us (some u) (some p)).2.1 =
      ⟨us.users ++ [⟨us.nextId, u, hash p⟩], us.nextId + 1⟩ := by
    simp [signup, htu, htp, hf]
  have hf2 : findByUsername ⟨us.users ++ [⟨us.nextId, u, hash p⟩], us.nextId + 1⟩ u =
      some ⟨us.nextId, u, hash p⟩ := by
    have hl : us.users.find? (fun w => w.username == u) = none := by
      simpa [findByUsername] using hf
    simp [findByUsername, List.find?_append, hl]
  refine ⟨?_, ?_, ?_⟩
  · intro hash2 pw?
    rw [e1]
    by_cases hg : truthyStr pw? = true
    · constructor <;> simp [signup, htu, hg, hf2]
    · have hg' : truthyStr pw? = false := by simpa using hg
      constructor <;> simp [signup, htu, hg']
  · intro hash2 p2 hp2
    have htp2 : truthyStr (some p2) = true := by simp [truthyStr, hp2]
    rw [e1]
    simp [signup, htu, htp2, hf2]
  · intro hash2 un? pw? hnd
    by_cases hg : (!truthyStr un? || !truthyStr pw?) = true
    · simpa [signup, hg] using hnd
    · have hg' : (!truthyStr un? || !truthyStr pw?) = false := by simpa using hg
      cases hfind : findByUsername us (un?.getD "") with
      | some w => simpa [signup, hg', hfind] using hnd
      | none =>
        have hnot : (un?.getD "") ∉ us.users.map User.username := by
          intro hmem
          obtain ⟨w, hw, he⟩ := List.mem_map.mp hmem
          have hall : ∀ x ∈ us.users, ¬ x.username = un?.getD "" := by
            simpa [findByUsername] using hfind
          exact hall w hw he
        simp only [signup, hg', Bool.false_eq_true, if_false, hfind]
        simp [List.nodup_append, hnd, hnot]

/-- Claim C3 witness: signing up alice a second time is rejected with the
duplicate error, while a username differing only in case from an existing
one is accepted (matching is case-sensitive exact equality). -/
theorem username_uniqueness_witness :
    (signup (fun x => x) ((signup (fun x => x) ⟨[], 1⟩
        (some "alice") (some "pw")).2.1) (some "alice") (some "pw2")).1 =
      ⟨400, "Username already taken."⟩ ∧
    (signup (fun x => x) ⟨[⟨1, "Alice", "h"⟩], 2⟩
        (some "alice") (some "pw")).1.status = 200 :=
  ⟨(username_uniqueness (fun x => x) ⟨[], 1⟩ "alice" "pw" (by decide)).2.1
      (fun x => x) "pw2" (by decide),
   by decide⟩

/-- Claim C9: with a logged-in user, a present nonzero id and a nonempty
message, and no storage failure, the update and delete handlers of the two
server variants return the same status and leave the same message store;
and a null-owner row yields 403 in variant 2 as well, since a null owner
never equals a logged-in user id. -/
theorem variants_agree (s : MsgStore) (uid i : Nat) (m : String)
    (huid : uid ≠ 0) (hi : i ≠ 0) (hm : m ≠ "") :
    ((updateV1 s s uid (some i) (some m)).2.status =
        (updateV2 s s uid (some i) (some m)).2.status ∧
      (updateV1 s s uid (some i) (some m)).1 =
        (updateV2 s s uid (some i) (some m)).1) ∧
    ((deleteV1 s s uid (some i)).2.status = (deleteV2 s s uid (some i)).2.status ∧
      (deleteV1 s s uid (some i)).1 = (deleteV2 s s uid (some i)).1) ∧
    (∀ row, selectById s i = some row → row.user_id = none →
      (updateV2 s s uid (some i) (some m)).2.status = 403 ∧
      (deleteV2 s s uid (some i)).2.status = 403) := by
  have h3 : ∀ row, selectById s i = some row → row.user_id = none →
      (updateV2 s s uid (some i) (some m)).2.status = 403 ∧
      (deleteV2 s s uid (some i)).2.status = 403 := by
    intro row hrow hnull
    constructor <;> simp [updateV2, deleteV2, hrow, hnull]
  refine ⟨?_, ?_, h3⟩ <;>
  · cases hfind : selectById s i with
    | none =>
      constructor <;>
        simp [updateV1, updateV2, deleteV1, deleteV2, truthyNum, truthyStr,
          hi, hm, hfind]
    | some row =>
      cases hro : row.user_id with
      | none =>
        constructor <;>
          simp [updateV1, updateV2, deleteV1, deleteV2, truthyNum, truthyStr,
            hi, hm, hfind, hro]
      | some o =>
        by_cases ho : o = 0
        · subst ho
          constructor <;>
            simp [updateV1, updateV2, deleteV1, deleteV2, truthyNum, truthyStr,
              hi, hm, hfind, hro, Ne.symm huid]
        · by_cases huo : o = uid
          · subst huo
            constructor <;>
              simp [updateV1, updateV2, deleteV1, deleteV2, truthyNum, truthyStr,
                hi, hm, hfind, hro, ho]
          · constructor <;>
              simp [updateV1, updateV2, deleteV1, deleteV2, truthyNum, truthyStr,
                hi, hm, hfind, hro, ho, huo]

/-- Claim C9 witness: the two variants agree on the demo store for the
owner of message 1, and the legacy message 3 yields 403 in variant 2. -/
theorem variants_agree_witness :
    ((updateV1 demoStore demoStore 1 (some 1) (some "x")).2.status =
        (updateV2 demoStore demoStore 1 (some 1) (some "x")).2.status ∧
      (updateV1 demoStore demoStore 1 (some 1) (some "x")).1 =
        (updateV2 demoStore demoStore 1 (some 1) (some "x")).1) ∧
    (updateV2 demoStore demoStore 1 (some 3) (some "x")).2.status = 403 :=
  ⟨(variants_agree demoStore 1 1 "x" (by decide) (by decide) (by decide)).1,
   ((variants_agree demoStore 1 3 "x" (by decide) (by decide) (by decide)).2.2
      ⟨3, "old", some "legacy", none, 5⟩ (by decide) rfl).1⟩

end Server
